import Mathlib

/-!
Shallow embedding of the query-execution core of the flinksql-workbench
repository, and proofs about the claims of its specification.

The embedded code lives in three source files:
* `src/services/statementExecutionEngine.js` — per-statement executor:
  state reset, submission, the poll loop, changelog folding, cancellation;
* `src/services/sessionManager.js` — session lifecycle (get/validate/close);
* `src/services/statementManager.js` — registry of active executors,
  per-statement cancel, global event fan-out.

Modelling conventions:
* JavaScript field values are modelled by `JSValue` (null, undefined and
  primitive values; nested objects, which the source compares by JSON
  serialization, do not occur in the rows the claims quantify over);
* a row object is an association list in insertion order, mirroring a JS
  object with string keys (`Object.keys` enumeration order);
* remote calls are oracles: each call site receives an `Except` value (the
  call's result or the thrown error) supplied by the environment;
* the cooperative cancellation flag is a function of the poll-iteration
  counter: it is read at the top of every loop iteration and after the last
  iteration, which is faithful for a flag that is set once and never
  cleared during a poll (all intra-iteration check points of the source
  produce the same terminal state as the next top-of-loop check);
* wall-clock time (timestamps, the subdivided inter-poll sleep) and log
  output are not modelled, except that the two "row not found" / "unknown
  row kind" warning logs of the changelog fold are counted, since the
  specification calls them diagnostics.
-/

namespace Workbench

/-- A JavaScript value as it appears in a result row: `null`, `undefined`,
or a primitive compared with strict equality by the source. -/
inductive JSValue where
  | vnull
  | vundefined
  | vbool (b : Bool)
  | vint (n : Int)
  | vstr (s : String)
deriving DecidableEq, Repr

/-- A row object: keys in insertion order with their values, as built by
`rowObject[columnName] = value` assignments in `pollForResults`. -/
abbrev Row := List (String × JSValue)

/-- `Object.keys(row)`: the keys in insertion order. -/
def jsKeys (r : Row) : List String := r.map Prod.fst

/-- JS property read `row[key]`: the first binding of the key, `undefined`
when the key is absent. -/
def getProp (r : Row) (k : String) : JSValue :=
  match r.find? (fun p => p.1 == k) with
  | some p => p.2
  | none => .vundefined

/-- JS property assignment `row[key] = value`: overwrite in place when the
key exists, append otherwise. -/
def setProp (r : Row) (k : String) (v : JSValue) : Row :=
  if r.any (fun p => p.1 == k) then
    r.map (fun p => if p.1 == k then (k, v) else p)
  else
    r ++ [(k, v)]

/-- Default JS string order on the character lists of two strings (the
comparison `Array.prototype.sort()` applies to string keys). -/
def listCharLe : List Char → List Char → Bool
  | [], _ => true
  | _ :: _, [] => false
  | a :: as, b :: bs =>
    if a = b then listCharLe as bs else decide (a.toNat < b.toNat)

/-- Key comparison used to sort the key lists in `rowsMatch`. -/
def keyLe (a b : String) : Bool := listCharLe a.data b.data

/-- Stable insertion of a key into a sorted key list. -/
def insertSorted (k : String) : List String → List String
  | [] => [k]
  | x :: xs => if keyLe k x then k :: x :: xs else x :: insertSorted k xs

/-- `Object.keys(row).sort()`: insertion sort with the default string
order (the source only relies on the result being sorted). -/
def sortKeys : List String → List String
  | [] => []
  | x :: xs => insertSorted x (sortKeys xs)

/-- Value comparison of `rowsMatch` (statementExecutionEngine.js lines
126-147): both null or both undefined are equal; a null or undefined on one
side only makes the values unequal; primitives use strict equality. -/
def valuesMatch : JSValue → JSValue → Bool
  | .vnull, .vnull => true
  | .vundefined, .vundefined => true
  | .vnull, _ => false
  | _, .vnull => false
  | .vundefined, _ => false
  | _, .vundefined => false
  | v1, v2 => v1 == v2

/-- `StatementExecutionEngine.rowsMatch` (lines 110-148): sort both key
lists, require the same number of keys, the same keys position by position,
and matching values for every key. -/
def rowsMatch (row1 row2 : Row) : Bool :=
  let keys1 := sortKeys (jsKeys row1)
  let keys2 := sortKeys (jsKeys row2)
  if keys1.length ≠ keys2.length then false
  else if keys1 ≠ keys2 then false
  else keys1.all (fun k => valuesMatch (getProp row1 k) (getProp row2 k))

/-- One column of the reported schema (name plus the type payload the
gateway sends along; only the name is read by the engine). -/
structure Column where
  name : String
  logicalType : String
deriving DecidableEq, Repr

/-- One change event of a result page: the row kind string and the
positional field values. Rows lacking a positional `fields` array are
skipped by the engine (line 255) and are not modelled. -/
structure ChangeEvent where
  kind : String
  fields : List JSValue
deriving DecidableEq, Repr

/-- Key for field `index` of a converted row (lines 258-266):
`columns[index]?.name || 'column_' + index` — a missing or falsy (empty)
column name falls back to the positional name. -/
def columnKey (columns : List Column) (i : Nat) : String :=
  match columns.get? i with
  | some c => if c.name = "" then "column_" ++ toString i else c.name
  | none => "column_" ++ toString i

/-- Conversion of an event's positional fields into a row object (lines
256-267): keyed by column names when a schema is present, by `field_i`
otherwise. -/
def convertRow (columns : List Column) (fields : List JSValue) : Row :=
  if columns.length > 0 then
    fields.enum.foldl (fun r iv => setProp r (columnKey columns iv.1) iv.2) []
  else
    fields.enum.foldl (fun r iv => setProp r ("field_" ++ toString iv.1) iv.2) []

/-- Accumulator of the changelog fold: the working copy of the results plus
the per-page counters and the two warning diagnostics the fold can log. -/
structure FoldAcc where
  results : List Row
  insertCount : Nat
  updateCount : Nat
  deleteCount : Nat
  notFoundWarnings : Nat
  unknownKindWarnings : Nat
deriving DecidableEq, Repr

/-- Fresh fold accumulator over a copy of the accumulated rows, with all
counters at zero (lines 247-250). -/
def FoldAcc.init (rs : List Row) : FoldAcc :=
  { results := rs, insertCount := 0, updateCount := 0, deleteCount := 0,
    notFoundWarnings := 0, unknownKindWarnings := 0 }

/-- One step of the changelog fold: the `switch (row.kind)` of lines
270-317. `INSERT` and `UPDATE_AFTER` append the converted row;
`UPDATE_BEFORE` and `DELETE` remove the first accumulated row matching it
under `rowsMatch` (via `findIndex` + `splice`), logging a warning when none
matches; any other kind is treated as `INSERT` with a warning. -/
def applyChangeEvent (columns : List Column) (acc : FoldAcc) (ev : ChangeEvent) : FoldAcc :=
  let rowObject := convertRow columns ev.fields
  if ev.kind = "INSERT" then
    { acc with results := acc.results ++ [rowObject], insertCount := acc.insertCount + 1 }
  else if ev.kind = "UPDATE_BEFORE" then
    match acc.results.findIdx? (fun existingRow => rowsMatch existingRow rowObject) with
    | some i => { acc with results := acc.results.eraseIdx i }
    | none => { acc with notFoundWarnings := acc.notFoundWarnings + 1 }
  else if ev.kind = "UPDATE_AFTER" then
    { acc with results := acc.results ++ [rowObject], updateCount := acc.updateCount + 1 }
  else if ev.kind = "DELETE" then
    match acc.results.findIdx? (fun existingRow => rowsMatch existingRow rowObject) with
    | some i => { acc with results := acc.results.eraseIdx i, deleteCount := acc.deleteCount + 1 }
    | none => { acc with notFoundWarnings := acc.notFoundWarnings + 1 }
  else
    { acc with results := acc.results ++ [rowObject], insertCount := acc.insertCount + 1,
               unknownKindWarnings := acc.unknownKindWarnings + 1 }

/-- The `for (const row of newRows)` loop of lines 252-319: fold the page's
change events into the accumulator in arrival order. -/
def foldChangelog (columns : List Column) (acc : FoldAcc) (evts : List ChangeEvent) : FoldAcc :=
  evts.foldl (applyChangeEvent columns) acc

/-- The executor's local state object (constructor lines 20-27):
phase string, last result-type/result-kind markers, accumulated rows and
the column schema. `lastUpdateTime` is wall clock and not modelled; the
`updateState` change check (lines 97-107) only skips no-op assignments and
does not alter the resulting state. -/
structure ExecState where
  statementExecutionState : String
  resultType : String
  resultKind : String
  results : List Row
  columns : List Column
deriving DecidableEq, Repr

/-- The `results` payload of a gateway response: the column list
(`results.columns || results.columnInfos`) and the change events of
`results.data`. An absent `data` array behaves like an empty one. -/
structure ResponseResults where
  columns : List Column
  data : List ChangeEvent
deriving DecidableEq, Repr

/-- One `getOperationResults` response: result-type and result-kind
markers, the optional `results` payload and the optional `nextResultUri`
further-page pointer. -/
structure PollResponse where
  resultType : String
  resultKind : String
  results : Option ResponseResults
  nextResultUri : Option String
deriving DecidableEq, Repr

/-- Token extraction from `nextResultUri` (lines 340-342): the regex
`result\x7b\x7d/(\d+)` match modelled by scanning the text after each
occurrence of `result/` for leading digits. -/
def parseNextToken (uri : String) : Option Nat :=
  ((uri.splitOn "result/").drop 1).findSome? (fun part =>
    let digits := part.takeWhile Char.isDigit
    if digits.isEmpty then none else digits.toNat?)

/-- Column handling of one page (lines 231-238): columns are captured only
while the current schema is empty and the page carries a non-empty column
list. -/
def pageColumns (st : ExecState) (response : PollResponse) : List Column :=
  match response.results with
  | some res =>
    if st.columns.length = 0 then
      if res.columns.length > 0 then res.columns else st.columns
    else st.columns
  | none => st.columns

/-- Data handling of one page (lines 241-330): on `SUCCESS_WITH_CONTENT`
with a non-empty `data` array, fold the change events into a copy of the
accumulated rows; conversion uses the schema from before this page's
column capture, exactly as the source reads `this.state.columns` before
`updateState` runs. -/
def pageResults (st : ExecState) (response : PollResponse) : List Row :=
  if response.resultKind = "SUCCESS_WITH_CONTENT" then
    match response.results with
    | some res =>
      if res.data.length > 0 then
        (foldChangelog st.columns (FoldAcc.init st.results) res.data).results
      else st.results
    | none => st.results
  else st.results

/-- Continuation decision of one iteration. -/
inductive PageDecision where
  | stop
  | continueWith (token : Nat)
deriving DecidableEq, Repr

/-- One successful poll iteration body (lines 226-356): record the page's
markers, capture columns, fold content, then decide continuation — `EOS`
stops, a parsable `nextResultUri` advances the token, anything else
stops. -/
def processPage (st : ExecState) (response : PollResponse) : ExecState × PageDecision :=
  let st' : ExecState :=
    { statementExecutionState := st.statementExecutionState,
      resultType := response.resultType,
      resultKind := response.resultKind,
      results := pageResults st response,
      columns := pageColumns st response }
  let decision : PageDecision :=
    if response.resultType = "EOS" then .stop
    else
      match response.nextResultUri with
      | some uri =>
        match parseNextToken uri with
        | some t => .continueWith t
        | none => .stop
      | none => .stop
  (st', decision)

/-- Terminal result of the poll loop: normal completion, observed
cancellation, or a propagated remote error, each with the executor state
it leaves behind. -/
inductive PollResult where
  | completed (st : ExecState)
  | wasCancelled (st : ExecState)
  | failed (e : String) (st : ExecState)
deriving DecidableEq, Repr

/-- The executor state a poll result leaves behind. -/
def PollResult.state : PollResult → ExecState
  | .completed st => st
  | .wasCancelled st => st
  | .failed _ st => st

/-- One full run of the poll loop: its result, the number of loop
iterations entered, and the pagination tokens passed to the gateway in
order. -/
structure PollRun where
  result : PollResult
  iterations : Nat
  tokensUsed : List Nat
deriving DecidableEq, Repr

/-- The hard iteration ceiling `maxLoops` (line 205). -/
def maxLoops : Nat := 1000

/-- Terminal cancellation state (lines 386-390). -/
def stoppedCancelled (st : ExecState) : ExecState :=
  { st with statementExecutionState := "STOPPED",
            resultType := "CANCELLED", resultKind := "CANCELLED" }

/-- Terminal error state (lines 362-366 and 191-195). -/
def stoppedError (st : ExecState) : ExecState :=
  { st with statementExecutionState := "STOPPED",
            resultType := "ERROR", resultKind := "ERROR" }

/-- Terminal completion state (lines 405-407). -/
def stoppedCompleted (st : ExecState) : ExecState :=
  { st with statementExecutionState := "STOPPED" }

/-- Code after the poll loop (lines 373-416): the cancellation flag decides
between the cancelled terminal state and normal completion; the
best-effort remote `cancelOperation` call has no local effect and is not
modelled. -/
def finishLoop (st : ExecState) (isCancelled : Bool) (iters : Nat) : PollRun :=
  if isCancelled then
    { result := .wasCancelled (stoppedCancelled st), iterations := iters, tokensUsed := [] }
  else
    { result := .completed (stoppedCompleted st), iterations := iters, tokensUsed := [] }

/-- The poll loop of `pollForResults` (lines 202-417). `respond k tok` is
the gateway's answer (or thrown error) to the `k`-th fetch, issued with
pagination token `tok`; `cancelled k` is the cancellation flag as read at
the check reached after `k` completed iterations. Fuel `maxLoops -
loopCount` realizes the `loopCount < maxLoops` bound of the `while`
condition; a thrown fetch error marks the state `STOPPED`/`ERROR` and
re-raises (lines 358-369). -/
def pollLoopAux (respond : Nat → Nat → Except String PollResponse)
    (cancelled : Nat → Bool) :
    Nat → ExecState → Nat → Nat → PollRun
  | 0, st, _, loopCount => finishLoop st (cancelled loopCount) loopCount
  | fuel + 1, st, nextToken, loopCount =>
    if cancelled loopCount then
      finishLoop st true loopCount
    else
      match respond loopCount nextToken with
      | .error e =>
        { result := .failed e (stoppedError st), iterations := loopCount + 1,
          tokensUsed := [nextToken] }
      | .ok response =>
        match processPage st response with
        | (st', .stop) =>
          let fin := finishLoop st' (cancelled (loopCount + 1)) (loopCount + 1)
          { fin with tokensUsed := nextToken :: fin.tokensUsed }
        | (st', .continueWith t) =>
          let rest := pollLoopAux respond cancelled fuel st' t (loopCount + 1)
          { rest with tokensUsed := nextToken :: rest.tokensUsed }

/-- `pollForResults` entry: token 0, iteration counter 0, full fuel. -/
def pollForResults (respond : Nat → Nat → Except String PollResponse)
    (cancelled : Nat → Bool) (st : ExecState) : PollRun :=
  pollLoopAux respond cancelled maxLoops st 0 0

/-- A session as returned by the Session Coordinator: the opaque remote
handle (the only attribute the executor reads). -/
structure Session where
  sessionHandle : String
deriving DecidableEq, Repr

/-- Environment of one `executeSQL` run: the outcome of each remote call
the executor makes, in program order. `submitResult` is a function of the
session handle and statement text actually passed to `submitStatement`. -/
structure ExecEnv where
  getSessionResult : Except String Session
  validateResult : Bool
  createSessionResult : Except String Session
  submitResult : String → String → Except String String
  respond : Nat → Nat → Except String PollResponse
  cancelled : Nat → Bool

/-- The state reset at the top of `executeSQL` (lines 155-163). -/
def initialRunState : ExecState :=
  { statementExecutionState := "RUNNING", resultType := "EOS",
    resultKind := "SUCCESS", results := [], columns := [] }

/-- Observable outcome of one `executeSQL` run: the returned status or the
re-raised error, the final executor state, and the session handle that was
passed to `submitStatement` (when submission was reached). -/
structure ExecResult where
  outcome : Except String String
  finalState : ExecState
  submittedHandle : Option String

/-- `StatementExecutionEngine.executeSQL` (lines 151-199): reset state to
`RUNNING`; `getSession` (a thrown creation error is caught, marks the
state `STOPPED`/`ERROR` and re-raises); `validateSession` (never throws);
on an invalid session, `createSession` (its error propagates the same
way); submit using the session handle bound by the earlier `getSession`
call — the local `session` variable is not reassigned after the
re-creation; then run the poll loop, whose thrown error is re-caught and
re-marked by the same `catch`. -/
def executeSQL (env : ExecEnv) (statement : String) : ExecResult :=
  let st := initialRunState
  match env.getSessionResult with
  | .error e =>
    { outcome := .error e, finalState := stoppedError st, submittedHandle := none }
  | .ok session =>
    let revalidate : Except String Unit :=
      if env.validateResult then .ok ()
      else
        match env.createSessionResult with
        | .ok _ => .ok ()
        | .error e => .error e
    match revalidate with
    | .error e =>
      { outcome := .error e, finalState := stoppedError st, submittedHandle := none }
    | .ok _ =>
      match env.submitResult session.sessionHandle statement with
      | .error e =>
        { outcome := .error e, finalState := stoppedError st,
          submittedHandle := some session.sessionHandle }
      | .ok _opHandle =>
        match (pollForResults env.respond env.cancelled st).result with
        | .completed st' =>
          { outcome := .ok "COMPLETED", finalState := st',
            submittedHandle := some session.sessionHandle }
        | .wasCancelled st' =>
          { outcome := .ok "CANCELLED", finalState := st',
            submittedHandle := some session.sessionHandle }
        | .failed e st' =>
          { outcome := .error e, finalState := stoppedError st',
            submittedHandle := some session.sessionHandle }

/-- Session Coordinator state (sessionManager.js): the current session and
its start time, the only pieces of state `closeSession` touches. -/
structure SessionState where
  currentSession : Option Session
  sessionStartTime : Option Nat
deriving DecidableEq, Repr

/-- Observable outcome of one `closeSession` call: the new coordinator
state, whether listeners were notified, and the error propagated to the
caller (if any). -/
structure CloseOutcome where
  finalState : SessionState
  notifiedListeners : Bool
  propagatedError : Option String
deriving DecidableEq, Repr

/-- `SessionManager.closeSession` (lines 174-191): early return when no
session is current; otherwise `try` the remote close, swallow its error in
`catch`, and in `finally` clear the session and notify listeners.
`remoteClose` is the outcome of the `flinkApi.closeSession` call. -/
def closeSession (st : SessionState) (remoteClose : Except String Unit) : CloseOutcome :=
  match st.currentSession with
  | none =>
    { finalState := st, notifiedListeners := false, propagatedError := none }
  | some _ =>
    match remoteClose with
    | .ok _ =>
      { finalState := { currentSession := none, sessionStartTime := none },
        notifiedListeners := true, propagatedError := none }
    | .error _ =>
      { finalState := { currentSession := none, sessionStartTime := none },
        notifiedListeners := true, propagatedError := none }

/-- An executor as the Execution Coordinator sees it: its id and
cancellation flag (the part of `StatementExecutionEngine` that
`cancelStatement` touches). -/
structure EngineModel where
  statementId : String
  cancelledFlag : Bool
deriving DecidableEq, Repr

/-- The Execution Coordinator's registry `activeStatements`
(statementManager.js line 15): a map from statement id to engine, with
pairwise distinct keys as a JS `Map` guarantees. -/
structure ManagerState where
  activeStatements : List (String × EngineModel)
deriving DecidableEq, Repr

/-- `Map.get`: the binding of a key, if present. -/
def mapGet (m : List (String × EngineModel)) (k : String) : Option EngineModel :=
  match m.find? (fun p => p.1 == k) with
  | some p => some p.2
  | none => none

/-- `Map.delete`: remove the binding of a key. -/
def mapDelete (m : List (String × EngineModel)) (k : String) :
    List (String × EngineModel) :=
  m.filter (fun p => ¬ p.1 = k)

/-- `StatementExecutionEngine.cancel` (lines 428-442): set the flag, await
the current polling loop's unwind while ignoring its error, and return a
success report — this method never throws. The awaited unwind is
abstracted away; only the flag change and the report are observable here. -/
def engineCancel (e : EngineModel) : EngineModel × Bool × String :=
  ({ e with cancelledFlag := true }, true, "Statement execution cancelled")

/-- Observable outcome of one `cancelStatement` call: the new registry,
the returned report, the lifecycle event types published to global
observers, and the engine the call cancelled (if any). -/
structure CancelStatementOutcome where
  finalState : ManagerState
  success : Bool
  message : String
  publishedEvents : List String
  cancelledEngine : Option EngineModel
deriving DecidableEq, Repr

/-- `StatementManager.cancelStatement` (lines 214-240): an absent id
returns the "Statement not found" report without touching anything;
a present id has its engine's `cancel()` called and awaited, is deleted
from the registry, and a `statement_cancelled` lifecycle event is
published; the `catch` branch is unreachable because `cancel()` never
throws. -/
def cancelStatement (st : ManagerState) (statementId : String) : CancelStatementOutcome :=
  match mapGet st.activeStatements statementId with
  | none =>
    { finalState := st, success := false, message := "Statement not found",
      publishedEvents := [], cancelledEngine := none }
  | some engine =>
    let c := engineCancel engine
    { finalState := { activeStatements := mapDelete st.activeStatements statementId },
      success := c.2.1, message := c.2.2,
      publishedEvents := ["statement_cancelled"],
      cancelledEngine := some c.1 }

/-! Concrete inputs used by the witness theorems. -/

/-- An `EOS` page with no payload: the gateway reports end-of-stream. -/
def eosResponse : PollResponse :=
  { resultType := "EOS", resultKind := "SUCCESS", results := none, nextResultUri := none }

/-- Two appended events with distinct rows. -/
def evtsW : List ChangeEvent :=
  [{ kind := "INSERT", fields := [.vint 1] }, { kind := "UPDATE_AFTER", fields := [.vint 2] }]

/-- The row `convertRow [] [.vint 1]` accumulates to. -/
def rowW : Row := [("field_0", JSValue.vint 1)]

/-- A `DELETE` event matching `rowW`. -/
def evDelete : ChangeEvent := { kind := "DELETE", fields := [.vint 1] }

/-- A `DELETE` event matching no accumulated row. -/
def evDeleteMissing : ChangeEvent := { kind := "DELETE", fields := [.vint 9] }

/-- An environment whose session acquisition fails. -/
def envBoom : ExecEnv :=
  { getSessionResult := .error "boom", validateResult := true,
    createSessionResult := .ok { sessionHandle := "s2" },
    submitResult := fun _ _ => .ok "op", respond := fun _ _ => .ok eosResponse,
    cancelled := fun _ => false }

/-- An environment where validation reports the session invalid and a new
session with a different handle is created. -/
def envStale : ExecEnv :=
  { getSessionResult := .ok { sessionHandle := "old-handle" }, validateResult := false,
    createSessionResult := .ok { sessionHandle := "new-handle" },
    submitResult := fun _ _ => .ok "op", respond := fun _ _ => .ok eosResponse,
    cancelled := fun _ => false }

/-- A registry holding one executor. -/
def mgrW : ManagerState :=
  { activeStatements := [("stmt_1", { statementId := "stmt_1", cancelledFlag := false })] }

/-- A one-column schema. -/
def colsW : List Column := [{ name := "id", logicalType := "INT" }]

/-- A page carrying the schema `colsW` and no data. -/
def respColsW : PollResponse :=
  { resultType := "PAYLOAD", resultKind := "SUCCESS_WITH_CONTENT",
    results := some { columns := colsW, data := [] }, nextResultUri := none }

/-- A page carrying a different, conflicting schema. -/
def respOtherColsW : PollResponse :=
  { resultType := "PAYLOAD", resultKind := "SUCCESS_WITH_CONTENT",
    results := some { columns := [{ name := "other", logicalType := "STRING" }], data := [] },
    nextResultUri := none }

/-- A mid-poll executor state that has already captured `colsW`. -/
def stWithColsW : ExecState :=
  { statementExecutionState := "RUNNING", resultType := "EOS", resultKind := "SUCCESS",
    results := [], columns := colsW }

/-- A mid-poll executor state holding one accumulated row. -/
def stWithRowW : ExecState :=
  { statementExecutionState := "RUNNING", resultType := "PAYLOAD",
    resultKind := "SUCCESS_WITH_CONTENT", results := [rowW], columns := [] }

end Workbench

namespace Workbench

/-! Helper lemmas about the changelog fold. -/

theorem applyChangeEvent_append (columns : List Column) (acc : FoldAcc) (ev : ChangeEvent)
    (h : ev.kind = "INSERT" ∨ ev.kind = "UPDATE_AFTER") :
    (applyChangeEvent columns acc ev).results
      = acc.results ++ [convertRow columns ev.fields] := by
  rcases h with h | h <;> simp [applyChangeEvent, h]

theorem foldChangelog_cons (columns : List Column) (acc : FoldAcc) (ev : ChangeEvent)
    (rest : List ChangeEvent) :
    foldChangelog columns acc (ev :: rest)
      = foldChangelog columns (applyChangeEvent columns acc ev) rest := rfl

theorem foldChangelog_append_only (columns : List Column) (evts : List ChangeEvent) :
    ∀ acc : FoldAcc, (∀ ev ∈ evts, ev.kind = "INSERT" ∨ ev.kind = "UPDATE_AFTER") →
      (foldChangelog columns acc evts).results
        = acc.results ++ evts.map (fun ev => convertRow columns ev.fields) := by
  induction evts with
  | nil => intro acc _; simp [foldChangelog]
  | cons e es ih =>
    intro acc h
    have he := h e (List.mem_cons_self e es)
    have hes : ∀ ev ∈ es, ev.kind = "INSERT" ∨ ev.kind = "UPDATE_AFTER" :=
      fun ev hm => h ev (List.mem_cons_of_mem e hm)
    rw [foldChangelog_cons, ih _ hes, applyChangeEvent_append columns acc e he]
    simp

/-- C1: folding a sequence of change events whose kinds are only `INSERT`
or `UPDATE_AFTER` (with pairwise distinct converted rows) into an empty
accumulated sequence yields exactly the events' converted rows in arrival
order, and each of the two kinds appends its converted row to the end. -/
theorem c1_changelog_replay_insert_order (columns : List Column) (evts : List ChangeEvent)
    (hkinds : ∀ ev ∈ evts, ev.kind = "INSERT" ∨ ev.kind = "UPDATE_AFTER")
    (hdistinct : (evts.map (fun ev => convertRow columns ev.fields)).Pairwise (· ≠ ·)) :
    (foldChangelog columns (FoldAcc.init []) evts).results
        = evts.map (fun ev => convertRow columns ev.fields) ∧
    ∀ (acc : FoldAcc) (ev : ChangeEvent), ev.kind = "INSERT" ∨ ev.kind = "UPDATE_AFTER" →
      (applyChangeEvent columns acc ev).results
        = acc.results ++ [convertRow columns ev.fields] := by
  constructor
  · rw [foldChangelog_append_only columns evts (FoldAcc.init []) hkinds]
    simp [FoldAcc.init]
  · exact fun acc ev h => applyChangeEvent_append columns acc ev h

/-- Witness for C1 at two concrete events. -/
theorem c1_changelog_replay_insert_order_witness :
    (foldChangelog [] (FoldAcc.init []) evtsW).results
      = [[("field_0", JSValue.vint 1)], [("field_0", JSValue.vint 2)]] := by
  have h := c1_changelog_replay_insert_order [] evtsW (by decide) (by decide)
  rw [h.1]
  decide

/-- C2: an `UPDATE_BEFORE` or `DELETE` event removes the first
(lowest-index) accumulated row that `rowsMatch` reports deeply equal to
the event's converted row; when none matches, the row sequence is
unchanged, exactly one not-found diagnostic is recorded (and no
unknown-kind diagnostic), and folding continues with the remaining
events. -/
theorem c2_update_before_delete_removal (columns : List Column) (acc : FoldAcc)
    (ev : ChangeEvent) (hkind : ev.kind = "UPDATE_BEFORE" ∨ ev.kind = "DELETE") :
    (∀ i, acc.results.findIdx? (fun r => rowsMatch r (convertRow columns ev.fields)) = some i →
      (applyChangeEvent columns acc ev).results = acc.results.eraseIdx i ∧
      (applyChangeEvent columns acc ev).notFoundWarnings = acc.notFoundWarnings) ∧
    (acc.results.findIdx? (fun r => rowsMatch r (convertRow columns ev.fields)) = none →
      (applyChangeEvent columns acc ev).results = acc.results ∧
      (applyChangeEvent columns acc ev).notFoundWarnings = acc.notFoundWarnings + 1 ∧
      (applyChangeEvent columns acc ev).unknownKindWarnings = acc.unknownKindWarnings) ∧
    (∀ rest, foldChangelog columns acc (ev :: rest)
      = foldChangelog columns (applyChangeEvent columns acc ev) rest) := by
  refine ⟨?_, ?_, fun rest => rfl⟩
  · intro i hi
    rcases hkind with h | h <;> simp [applyChangeEvent, h, hi]
  · intro hnone
    rcases hkind with h | h <;> simp [applyChangeEvent, h, hnone]

/-- Witness for C2: a matching `DELETE` removes the row; a non-matching
`DELETE` leaves the sequence unchanged with one diagnostic. -/
theorem c2_update_before_delete_removal_witness :
    (applyChangeEvent [] (FoldAcc.init [rowW]) evDelete).results = [] ∧
    (applyChangeEvent [] (FoldAcc.init [rowW]) evDeleteMissing).results = [rowW] ∧
    (applyChangeEvent [] (FoldAcc.init [rowW]) evDeleteMissing).notFoundWarnings = 1 := by
  have h1 := c2_update_before_delete_removal [] (FoldAcc.init [rowW]) evDelete (Or.inr rfl)
  have h2 := c2_update_before_delete_removal [] (FoldAcc.init [rowW]) evDeleteMissing (Or.inr rfl)
  refine ⟨?_, ?_, ?_⟩
  · rw [(h1.1 0 (by decide)).1]; decide
  · exact (h2.2.1 (by decide)).1
  · rw [(h2.2.1 (by decide)).2.1]; decide

/-! Helper lemmas about key sorting and `rowsMatch`. -/

theorem mem_insertSorted (a k : String) (l : List String) :
    a ∈ insertSorted k l ↔ a = k ∨ a ∈ l := by
  induction l with
  | nil => simp [insertSorted]
  | cons x xs ih =>
    by_cases h : keyLe k x = true
    · simp [insertSorted, h]
    · simp only [insertSorted, if_neg h, List.mem_cons, ih]
      tauto

theorem mem_sortKeys (a : String) (l : List String) : a ∈ sortKeys l ↔ a ∈ l := by
  induction l with
  | nil => simp [sortKeys]
  | cons x xs ih => simp [sortKeys, mem_insertSorted, ih]

theorem rowsMatch_absent_key (r1 r2 : Row) (k : String) (v : JSValue)
    (hmem : (k, v) ∈ r1) (habs : k ∉ jsKeys r2) : rowsMatch r1 r2 = false := by
  have hk1 : k ∈ sortKeys (jsKeys r1) := by
    rw [mem_sortKeys]
    exact List.mem_map.2 ⟨(k, v), hmem, rfl⟩
  have hne : sortKeys (jsKeys r1) ≠ sortKeys (jsKeys r2) := by
    intro he
    exact habs ((mem_sortKeys k (jsKeys r2)).1 (he ▸ hk1))
  by_cases hlen : (sortKeys (jsKeys r1)).length = (sortKeys (jsKeys r2)).length
  · simp [rowsMatch, hlen, hne]
  · simp [rowsMatch, hlen]

/-- C3 counterexample: a row holding `null` for a field is not reported
equal to the row omitting that field, nor to the row holding `undefined`
for it, although the two rows agree on every present non-null field. -/
theorem c3_null_absent_counterexample :
    rowsMatch [("a", JSValue.vint 1), ("b", JSValue.vnull)] [("a", JSValue.vint 1)] = false ∧
    rowsMatch [("a", JSValue.vint 1), ("b", JSValue.vnull)]
      [("a", JSValue.vint 1), ("b", JSValue.vundefined)] = false := by
  decide

/-- C3 amended: the deep-equality comparison treats a `null` field, an
`undefined` field and an absent field as pairwise distinct — `null`
matches only `null`, `undefined` matches only `undefined`, and a row
holding `null` for a key absent from the other row never matches it. -/
theorem c3_null_and_absent_are_distinct :
    (∀ v : JSValue, valuesMatch JSValue.vnull v = true ↔ v = JSValue.vnull) ∧
    (∀ v : JSValue, valuesMatch JSValue.vundefined v = true ↔ v = JSValue.vundefined) ∧
    (∀ (r1 r2 : Row) (k : String), (k, JSValue.vnull) ∈ r1 → k ∉ jsKeys r2 →
      rowsMatch r1 r2 = false) := by
  refine ⟨?_, ?_, ?_⟩
  · intro v; cases v <;> simp [valuesMatch]
  · intro v; cases v <;> simp [valuesMatch]
  · intro r1 r2 k hmem habs
    exact rowsMatch_absent_key r1 r2 k JSValue.vnull hmem habs

/-- Witness for the amended C3 at concrete rows. -/
theorem c3_null_and_absent_are_distinct_witness :
    valuesMatch JSValue.vnull JSValue.vundefined = false ∧
    rowsMatch [("b", JSValue.vnull)] [] = false := by
  constructor
  · have h := c3_null_and_absent_are_distinct.1 JSValue.vundefined
    simp only [iff_iff_implies_and_implies] at h
    cases hv : valuesMatch JSValue.vnull JSValue.vundefined
    · rfl
    · exact absurd (h.1 hv) (by decide)
  · exact c3_null_and_absent_are_distinct.2.2 [("b", JSValue.vnull)] [] "b"
      (by decide) (by decide)

/-! Helper lemmas about the poll loop. -/

theorem processPage_fst (st : ExecState) (r : PollResponse) :
    (processPage st r).1
      = { statementExecutionState := st.statementExecutionState,
          resultType := r.resultType, resultKind := r.resultKind,
          results := pageResults st r, columns := pageColumns st r } := rfl

theorem pageColumns_nonempty (st : ExecState) (r : PollResponse) (h : st.columns ≠ []) :
    pageColumns st r = st.columns := by
  have hlen : ¬ st.columns.length = 0 := by
    simpa [List.length_eq_zero] using h
  unfold pageColumns
  cases r.results <;> simp [hlen]

theorem pollLoopAux_stopped (respond : Nat → Nat → Except String PollResponse)
    (cancelled : Nat → Bool) :
    ∀ (fuel : Nat) (st : ExecState) (tok k : Nat),
      ((pollLoopAux respond cancelled fuel st tok k).result.state).statementExecutionState
        = "STOPPED" := by
  intro fuel
  induction fuel with
  | zero =>
    intro st tok k
    simp only [pollLoopAux, finishLoop]
    split <;> rfl
  | succ n ih =>
    intro st tok k
    simp only [pollLoopAux]
    split
    · rfl
    · split
      · rfl
      · split
        · simp only [finishLoop]
          split <;> rfl
        · exact ih _ _ _

theorem pollLoopAux_columns_preserved (respond : Nat → Nat → Except String PollResponse)
    (cancelled : Nat → Bool) :
    ∀ (fuel : Nat) (st : ExecState) (tok k : Nat), st.columns ≠ [] →
      ((pollLoopAux respond cancelled fuel st tok k).result.state).columns = st.columns := by
  intro fuel
  induction fuel with
  | zero =>
    intro st tok k _
    simp only [pollLoopAux, finishLoop]
    split <;> rfl
  | succ n ih =>
    intro st tok k hcols
    simp only [pollLoopAux]
    split
    · rfl
    · split
      · rfl
      · rename_i response _
        have hfst : (processPage st response).1.columns = st.columns := by
          rw [processPage_fst]
          exact pageColumns_nonempty st response hcols
        split
        · rename_i st' heq
          rw [heq] at hfst
          simp only [finishLoop]
          split <;> simpa [PollResult.state, stoppedCancelled, stoppedCompleted] using hfst
        · rename_i st' t heq
          rw [heq] at hfst
          have hne : st'.columns ≠ [] := by
            rw [hfst]; exact hcols
          have hrec := ih st' t (k + 1) hne
          calc ((pollLoopAux respond cancelled n st' t (k + 1)).result.state).columns
              = st'.columns := hrec
            _ = st.columns := hfst

theorem finishLoop_iterations (st : ExecState) (b : Bool) (i : Nat) :
    (finishLoop st b i).iterations = i := by
  unfold finishLoop
  split <;> rfl

theorem pollLoopAux_iterations_le (respond : Nat → Nat → Except String PollResponse)
    (cancelled : Nat → Bool) :
    ∀ (fuel : Nat) (st : ExecState) (tok k : Nat),
      (pollLoopAux respond cancelled fuel st tok k).iterations ≤ k + fuel := by
  intro fuel
  induction fuel with
  | zero =>
    intro st tok k
    simp only [pollLoopAux]
    rw [finishLoop_iterations]
    omega
  | succ n ih =>
    intro st tok k
    simp only [pollLoopAux]
    split
    · rw [finishLoop_iterations]
      omega
    · split
      · show k + 1 ≤ k + (n + 1)
        omega
      · split
        · rename_i st' _
          show (finishLoop st' (cancelled (k + 1)) (k + 1)).iterations ≤ k + (n + 1)
          rw [finishLoop_iterations]
          omega
        · rename_i st' t _
          have := ih st' t (k + 1)
          show (pollLoopAux respond cancelled n st' t (k + 1)).iterations ≤ k + (n + 1)
          omega

theorem pollLoopAux_tokens_shape (respond : Nat → Nat → Except String PollResponse)
    (cancelled : Nat → Bool) (fuel : Nat) (st : ExecState) (tok k : Nat) :
    (pollLoopAux respond cancelled fuel st tok k).tokensUsed = []
      ∨ ∃ ts, (pollLoopAux respond cancelled fuel st tok k).tokensUsed = tok :: ts := by
  cases fuel with
  | zero =>
    left
    simp only [pollLoopAux, finishLoop]
    split <;> rfl
  | succ n =>
    simp only [pollLoopAux]
    split
    · left; rfl
    · split
      · right; exact ⟨[], rfl⟩
      · split
        · right; exact ⟨_, rfl⟩
        · right; exact ⟨_, rfl⟩

/-- C4: the column schema is captured from the first page that carries a
non-empty column list, and from any state whose schema is already set the
whole remaining poll run leaves it unchanged, whatever column lists later
pages carry. -/
theorem c4_column_schema_immutable :
    (∀ (st : ExecState) (resp : PollResponse) (res : ResponseResults),
      st.columns = [] → resp.results = some res → res.columns ≠ [] →
      (processPage st resp).1.columns = res.columns) ∧
    (∀ (respond : Nat → Nat → Except String PollResponse) (cancelled : Nat → Bool)
      (fuel : Nat) (st : ExecState) (tok k : Nat), st.columns ≠ [] →
      ((pollLoopAux respond cancelled fuel st tok k).result.state).columns = st.columns) := by
  constructor
  · intro st resp res hempty hres hcols
    have hlen : 0 < res.columns.length := by
      cases hc : res.columns with
      | nil => exact absurd hc hcols
      | cons a l => simp [hc]
    rw [processPage_fst]
    simp [pageColumns, hres, hempty, hlen]
  · exact fun respond cancelled fuel st tok k h =>
      pollLoopAux_columns_preserved respond cancelled fuel st tok k h

/-- Witness for C4: a first page sets columns; a poll run from a state with
a set schema, against a gateway that keeps sending a different schema,
never alters it. -/
theorem c4_column_schema_immutable_witness :
    (processPage initialRunState respColsW).1.columns = colsW ∧
    ((pollLoopAux (fun _ _ => .ok respOtherColsW) (fun _ => false) 5
        stWithColsW 0 0).result.state).columns = colsW := by
  constructor
  · exact c4_column_schema_immutable.1 initialRunState respColsW { columns := colsW, data := [] }
      rfl rfl (by decide)
  · exact c4_column_schema_immutable.2 (fun _ _ => .ok respOtherColsW) (fun _ => false) 5
      stWithColsW 0 0 (by decide)

/-- C5: when the cancellation flag reads true at a poll decision point,
the loop ends in the cancelled terminal state: phase `STOPPED`, outcome
`CANCELLED`, and the accumulated row sequence of the moment of
cancellation is kept unchanged (so its length never drops). -/
theorem c5_cancellation_preserves_rows (respond : Nat → Nat → Except String PollResponse)
    (cancelled : Nat → Bool) (fuel : Nat) (st : ExecState) (tok k : Nat)
    (hc : cancelled k = true) :
    pollLoopAux respond cancelled fuel st tok k
      = { result := .wasCancelled (stoppedCancelled st), iterations := k, tokensUsed := [] } ∧
    (stoppedCancelled st).statementExecutionState = "STOPPED" ∧
    (stoppedCancelled st).results = st.results ∧
    st.results.length ≤ (stoppedCancelled st).results.length := by
  refine ⟨?_, rfl, rfl, le_refl _⟩
  cases fuel <;> simp [pollLoopAux, hc, finishLoop]

/-- Witness for C5: a mid-poll state with one accumulated row, flag set. -/
theorem c5_cancellation_preserves_rows_witness :
    (pollLoopAux (fun _ _ => .ok eosResponse) (fun _ => true) 7 stWithRowW 3 2).result
      = .wasCancelled
          { statementExecutionState := "STOPPED", resultType := "CANCELLED",
            resultKind := "CANCELLED", results := [rowW], columns := [] } := by
  have h := c5_cancellation_preserves_rows (fun _ _ => .ok eosResponse) (fun _ => true) 7
    stWithRowW 3 2 rfl
  rw [h.1]
  rfl

/-- C7: the poll loop starts its pagination token at 0 (the first fetch,
when one happens, uses token 0) and never exceeds the hard ceiling of 1000
iterations, for every gateway behavior — including one that always
supplies a further-page pointer. -/
theorem c7_poll_loop_bounded (respond : Nat → Nat → Except String PollResponse)
    (cancelled : Nat → Bool) (st : ExecState) :
    maxLoops = 1000 ∧
    (pollForResults respond cancelled st).iterations ≤ maxLoops ∧
    (pollForResults respond cancelled st).tokensUsed.head?.getD 0 = 0 := by
  refine ⟨rfl, ?_, ?_⟩
  · simpa [pollForResults] using
      pollLoopAux_iterations_le respond cancelled maxLoops st 0 0
  · rcases pollLoopAux_tokens_shape respond cancelled maxLoops st 0 0 with h | ⟨ts, h⟩ <;>
      simp [pollForResults, h]

/-- C6: every `executeSQL` run ends with phase `STOPPED`: it returns
`COMPLETED` or `CANCELLED`, or re-raises the error of the failing remote
call with the `ERROR` result-type/result-kind markers set — the raised
error of a failed session acquisition or submission is propagated
unchanged. -/
theorem c6_execute_always_stops (env : ExecEnv) (statement : String) :
    (executeSQL env statement).finalState.statementExecutionState = "STOPPED" ∧
    ((∃ s, (executeSQL env statement).outcome = .ok s ∧ (s = "COMPLETED" ∨ s = "CANCELLED")) ∨
      ∃ e, (executeSQL env statement).outcome = .error e ∧
        (executeSQL env statement).finalState.resultType = "ERROR" ∧
        (executeSQL env statement).finalState.resultKind = "ERROR") ∧
    (∀ e, env.getSessionResult = .error e → (executeSQL env statement).outcome = .error e) ∧
    (∀ s e, env.getSessionResult = .ok s → env.validateResult = true →
      env.submitResult s.sessionHandle statement = .error e →
      (executeSQL env statement).outcome = .error e) := by
  have hstop :
      ((pollForResults env.respond env.cancelled initialRunState).result.state).statementExecutionState
        = "STOPPED" :=
    pollLoopAux_stopped env.respond env.cancelled maxLoops initialRunState 0 0
  cases hg : env.getSessionResult with
  | error e0 =>
    refine ⟨?_, ?_, ?_, ?_⟩
    · simp [executeSQL, hg, stoppedError]
    · right
      exact ⟨e0, by simp [executeSQL, hg], by simp [executeSQL, hg, stoppedError],
        by simp [executeSQL, hg, stoppedError]⟩
    · intro e he
      injection he with h
      subst h
      simp [executeSQL, hg]
    · intro s e hs
      exact Except.noConfusion hs
  | ok session =>
    have hg3 : ∀ e, (Except.ok session : Except String Session) = Except.error e →
        (executeSQL env statement).outcome = .error e := by
      intro e he
      exact Except.noConfusion he
    by_cases hval : env.validateResult = true
    · cases hsub : env.submitResult session.sessionHandle statement with
      | error e0 =>
        have houtcome : (executeSQL env statement).outcome = .error e0 := by
          simp [executeSQL, hg, hval, hsub]
        refine ⟨?_, ?_, hg3, ?_⟩
        · simp [executeSQL, hg, hval, hsub, stoppedError]
        · right
          exact ⟨e0, houtcome, by simp [executeSQL, hg, hval, hsub, stoppedError],
            by simp [executeSQL, hg, hval, hsub, stoppedError]⟩
        · intro s e hs hv hsub2
          injection hs with h
          subst h
          rw [hsub] at hsub2
          injection hsub2 with h2
          subst h2
          exact houtcome
      | ok op =>
        have hg4 : ∀ s e, (Except.ok session : Except String Session) = Except.ok s → env.validateResult = true →
            env.submitResult s.sessionHandle statement = .error e →
            (executeSQL env statement).outcome = .error e := by
          intro s e hs _ hsub2
          injection hs with h
          subst h
          rw [hsub] at hsub2
          exact Except.noConfusion hsub2
        cases hp : (pollForResults env.respond env.cancelled initialRunState).result with
        | completed st' =>
          rw [hp] at hstop
          refine ⟨?_, Or.inl ⟨"COMPLETED", ?_, Or.inl rfl⟩, hg3, hg4⟩
          · simpa [executeSQL, hg, hval, hsub, hp, PollResult.state] using hstop
          · simp [executeSQL, hg, hval, hsub, hp]
        | wasCancelled st' =>
          rw [hp] at hstop
          refine ⟨?_, Or.inl ⟨"CANCELLED", ?_, Or.inr rfl⟩, hg3, hg4⟩
          · simpa [executeSQL, hg, hval, hsub, hp, PollResult.state] using hstop
          · simp [executeSQL, hg, hval, hsub, hp]
        | failed e0 st' =>
          refine ⟨?_, ?_, hg3, hg4⟩
          · simp [executeSQL, hg, hval, hsub, hp, stoppedError]
          · right
            exact ⟨e0, by simp [executeSQL, hg, hval, hsub, hp],
              by simp [executeSQL, hg, hval, hsub, hp, stoppedError],
              by simp [executeSQL, hg, hval, hsub, hp, stoppedError]⟩
    · have hg4 : ∀ s e, (Except.ok session : Except String Session) = Except.ok s → env.validateResult = true →
          env.submitResult s.sessionHandle statement = .error e →
          (executeSQL env statement).outcome = .error e := by
        intro s e _ hv _
        exact absurd hv hval
      cases hc : env.createSessionResult with
      | error e0 =>
        refine ⟨?_, ?_, hg3, hg4⟩
        · simp [executeSQL, hg, hval, hc, stoppedError]
        · right
          exact ⟨e0, by simp [executeSQL, hg, hval, hc],
            by simp [executeSQL, hg, hval, hc, stoppedError],
            by simp [executeSQL, hg, hval, hc, stoppedError]⟩
      | ok s2 =>
        cases hsub : env.submitResult session.sessionHandle statement with
        | error e0 =>
          refine ⟨?_, ?_, hg3, hg4⟩
          · simp [executeSQL, hg, hval, hc, hsub, stoppedError]
          · right
            exact ⟨e0, by simp [executeSQL, hg, hval, hc, hsub],
              by simp [executeSQL, hg, hval, hc, hsub, stoppedError],
              by simp [executeSQL, hg, hval, hc, hsub, stoppedError]⟩
        | ok op =>
          cases hp : (pollForResults env.respond env.cancelled initialRunState).result with
          | completed st' =>
            rw [hp] at hstop
            refine ⟨?_, Or.inl ⟨"COMPLETED", ?_, Or.inl rfl⟩, hg3, hg4⟩
            · simpa [executeSQL, hg, hval, hc, hsub, hp, PollResult.state] using hstop
            · simp [executeSQL, hg, hval, hc, hsub, hp]
          | wasCancelled st' =>
            rw [hp] at hstop
            refine ⟨?_, Or.inl ⟨"CANCELLED", ?_, Or.inr rfl⟩, hg3, hg4⟩
            · simpa [executeSQL, hg, hval, hc, hsub, hp, PollResult.state] using hstop
            · simp [executeSQL, hg, hval, hc, hsub, hp]
          | failed e0 st' =>
            refine ⟨?_, ?_, hg3, hg4⟩
            · simp [executeSQL, hg, hval, hc, hsub, hp, stoppedError]
            · right
              exact ⟨e0, by simp [executeSQL, hg, hval, hc, hsub, hp],
                by simp [executeSQL, hg, hval, hc, hsub, hp, stoppedError],
                by simp [executeSQL, hg, hval, hc, hsub, hp, stoppedError]⟩

/-- Witness for C6: a failing session acquisition ends `STOPPED` with the
original error propagated. -/
theorem c6_execute_always_stops_witness :
    (executeSQL envBoom "SELECT 1").finalState.statementExecutionState = "STOPPED" ∧
    (executeSQL envBoom "SELECT 1").outcome = .error "boom" := by
  refine ⟨(c6_execute_always_stops envBoom "SELECT 1").1, ?_⟩
  exact (c6_execute_always_stops envBoom "SELECT 1").2.2.1 "boom" rfl

/-- C8: with a current session, `closeSession` clears it whether the
remote close succeeds or fails; a failing remote close is absorbed
(listeners are notified of the state change) and never propagated. -/
theorem c8_close_session_clears (st : SessionState) (remoteClose : Except String Unit)
    (s : Session) (hcur : st.currentSession = some s) :
    (closeSession st remoteClose).finalState.currentSession = none ∧
    (closeSession st remoteClose).notifiedListeners = true ∧
    (closeSession st remoteClose).propagatedError = none := by
  cases remoteClose <;> simp [closeSession, hcur]

/-- Witness for C8: the remote close fails yet the session is cleared. -/
theorem c8_close_session_clears_witness :
    (closeSession { currentSession := some { sessionHandle := "s1" }, sessionStartTime := some 0 }
      (.error "network down")).finalState.currentSession = none ∧
    (closeSession { currentSession := some { sessionHandle := "s1" }, sessionStartTime := some 0 }
      (.error "network down")).propagatedError = none := by
  have h := c8_close_session_clears
    { currentSession := some { sessionHandle := "s1" }, sessionStartTime := some 0 }
    (.error "network down") { sessionHandle := "s1" } rfl
  exact ⟨h.1, h.2.2⟩

/-- C9: cancelling an absent statement id returns the "not found" report
without raising and changes nothing; a present id has its executor's
cancel flag set, is removed from the registry, and a single
`statement_cancelled` lifecycle event is published. -/
theorem c9_cancel_statement_semantics (st : ManagerState) (statementId : String) :
    (mapGet st.activeStatements statementId = none →
      cancelStatement st statementId
        = { finalState := st, success := false, message := "Statement not found",
            publishedEvents := [], cancelledEngine := none }) ∧
    (∀ engine, mapGet st.activeStatements statementId = some engine →
      (cancelStatement st statementId).success = true ∧
      (cancelStatement st statementId).finalState.activeStatements
        = mapDelete st.activeStatements statementId ∧
      (cancelStatement st statementId).publishedEvents = ["statement_cancelled"] ∧
      (cancelStatement st statementId).cancelledEngine
        = some { engine with cancelledFlag := true }) := by
  constructor
  · intro h
    simp [cancelStatement, h]
  · intro engine h
    simp [cancelStatement, h, engineCancel]

/-- Witness for C9: one registry, one absent and one present id. -/
theorem c9_cancel_statement_semantics_witness :
    cancelStatement mgrW "missing"
      = { finalState := mgrW, success := false, message := "Statement not found",
          publishedEvents := [], cancelledEngine := none } ∧
    (cancelStatement mgrW "stmt_1").finalState.activeStatements = [] ∧
    (cancelStatement mgrW "stmt_1").cancelledEngine
      = some { statementId := "stmt_1", cancelledFlag := true } := by
  have h1 := (c9_cancel_statement_semantics mgrW "missing").1 (by decide)
  have h2 := (c9_cancel_statement_semantics mgrW "stmt_1").2
    { statementId := "stmt_1", cancelledFlag := false } (by decide)
  refine ⟨h1, ?_, h2.2.2.2⟩
  rw [h2.2.1]
  decide

/-- C10: when validation reports the session invalid and a new session is
created, the statement is still submitted with the handle obtained by the
earlier `getSession` call, not the newly created session's handle. -/
theorem c10_submit_uses_stale_handle (env : ExecEnv) (statement : String) (s1 s2 : Session)
    (hget : env.getSessionResult = .ok s1) (hval : env.validateResult = false)
    (hcreate : env.createSessionResult = .ok s2) :
    (executeSQL env statement).submittedHandle = some s1.sessionHandle ∧
    (s1.sessionHandle ≠ s2.sessionHandle →
      (executeSQL env statement).submittedHandle ≠ some s2.sessionHandle) := by
  have hmain : (executeSQL env statement).submittedHandle = some s1.sessionHandle := by
    cases hsub : env.submitResult s1.sessionHandle statement with
    | error e => simp [executeSQL, hget, hval, hcreate, hsub]
    | ok op =>
      cases hp : (pollForResults env.respond env.cancelled initialRunState).result with
      | completed st' => simp [executeSQL, hget, hval, hcreate, hsub, hp]
      | wasCancelled st' => simp [executeSQL, hget, hval, hcreate, hsub, hp]
      | failed e st' => simp [executeSQL, hget, hval, hcreate, hsub, hp]
  refine ⟨hmain, fun hne hcontra => ?_⟩
  rw [hmain] at hcontra
  exact hne (Option.some.inj hcontra)

/-- Witness for C10: validation fails, a session with a different handle
is created, and submission still uses the old handle. -/
theorem c10_submit_uses_stale_handle_witness :
    (executeSQL envStale "SELECT 1").submittedHandle = some "old-handle" ∧
    (executeSQL envStale "SELECT 1").submittedHandle ≠ some "new-handle" := by
  have h := c10_submit_uses_stale_handle envStale "SELECT 1"
    { sessionHandle := "old-handle" } { sessionHandle := "new-handle" } rfl rfl rfl
  exact ⟨h.1, h.2 (by decide)⟩

end Workbench
